import Mathlib

/-!
Shallow embedding of `Extras/visifruit_launcher_cpp.cpp` (VisiFruit native
launcher). The launcher is a single-threaded Win32 message loop; we model it
as a state machine whose observable behaviour is an explicit trace of effects
(log lines, message boxes, shell launches, HTTP GETs, timer operations).
Every definition mirrors the corresponding C++ member function.
-/

namespace VisiFruit

/-- An RGB colour, as produced by the Win32 `RGB` macro. -/
structure RGB where
  r : Nat
  g : Nat
  b : Nat
deriving DecidableEq

/-- `RGB(76, 175, 80)`, the green used for a running service indicator. -/
def rgbGreen : RGB := ⟨76, 175, 80⟩

/-- `RGB(244, 67, 54)`, the red used for a stopped service indicator. -/
def rgbRed : RGB := ⟨244, 67, 54⟩

/-- `RGB(255, 255, 255)`, the text colour for all other static controls. -/
def rgbWhite : RGB := ⟨255, 255, 255⟩

/-- The three services tracked in the `serviceStatus` map. -/
inductive Service where
  | backend
  | frontend
  | system
deriving DecidableEq

/-- The `std::map<std::string, bool> serviceStatus` member: one reachable
flag per service. -/
structure ServiceStatus where
  backend : Bool
  frontend : Bool
  system : Bool
deriving DecidableEq

/-- Look up one service's flag, as `serviceStatus["backend"]` etc. do. -/
def ServiceStatus.get (s : ServiceStatus) : Service → Bool
  | Service.backend => s.backend
  | Service.frontend => s.frontend
  | Service.system => s.system

/-- The static controls distinguished by the `WM_CTLCOLORSTATIC` handler:
the three status dots, or any other static control. -/
inductive Ctl where
  | statusBackend
  | statusFrontend
  | statusSystem
  | other
deriving DecidableEq

/-- The status-dot control belonging to a service
(`hStatusBackend`, `hStatusFrontend`, `hStatusSystem`). -/
def ctlOf : Service → Ctl
  | Service.backend => Ctl.statusBackend
  | Service.frontend => Ctl.statusFrontend
  | Service.system => Ctl.statusSystem

/-- The fixed port probed for each service
(`CheckPort(8001)`, `CheckPort(3000)`, `CheckPort(8000)`). -/
def portOf : Service → Nat
  | Service.backend => 8001
  | Service.frontend => 3000
  | Service.system => 8000

/-- Observable effects of the launcher, in program order: a log message
(`AddLog` argument), a modal `MessageBox`, a `ShellExecuteEx` launch attempt
(file and parameters), a `ShellExecute` URL open, an HTTP GET issued by
`InternetOpenUrl`, `SetTimer`, `KillTimer`, and `InvalidateRect` of a status
dot. -/
inductive Eff where
  | log (message : String)
  | msgBox (text caption : String)
  | shellExec (file params : String)
  | openUrl (url : String)
  | httpGet (url : String)
  | setTimer (id period : Nat)
  | killTimer (id : Nat)
  | inval (svc : Service)
deriving DecidableEq

/-- Events dispatched by the window procedure that this model covers:
`WM_COMMAND` with a control id, and `WM_TIMER` with a timer id. -/
inductive Event where
  | command (commandId : Nat)
  | timer (timerId : Nat)
deriving DecidableEq

/-- Control ids, from the `#define ID_...` block. -/
def ID_START_ALL : Nat := 1001

def ID_STOP_ALL : Nat := 1002

def ID_START_BACKEND : Nat := 1003

def ID_START_FRONTEND : Nat := 1004

def ID_START_SYSTEM : Nat := 1005

def ID_OPEN_FRONTEND : Nat := 1006

def ID_OPEN_BACKEND : Nat := 1007

def ID_OPEN_SYSTEM : Nat := 1008

/-- `#define TIMER_STATUS_UPDATE 2001`. -/
def TIMER_STATUS_UPDATE : Nat := 2001

/-- Outcomes of the WinINet calls made by `CheckPort`: whether
`InternetOpen` yields a session handle, and whether `InternetOpenUrl`
succeeds for a given URL (any successful connection/response, regardless of
HTTP status code). -/
structure NetEnv where
  internetOpenOk : Bool
  getSucceeds : String → Bool

/-- The external environment of one run: network outcomes, whether the
marker file `main_etiquetadora.py` is present in the working directory
(`GetFileAttributes != INVALID_FILE_ATTRIBUTES`), and whether
`ShellExecuteEx` succeeds for a given `lpFile`. -/
structure Env where
  net : NetEnv
  markerPresent : Bool
  shellOk : String → Bool

/-- A `PROCESS_INFORMATION` record: the process and thread handles. -/
structure ProcessInformation where
  hProcess : Int
  hThread : Int
deriving DecidableEq

/-- `INVALID_HANDLE_VALUE`, i.e. `(HANDLE)-1`. -/
def INVALID_HANDLE_VALUE : Int := -1

/-- The launcher's mutable state touched by the modelled handlers: the
`serviceStatus` map and the `std::vector<PROCESS_INFORMATION> processes`
member. The log textbox is modelled separately (`AddLog` below) and also
appears in traces as `Eff.log` events. -/
structure LState where
  serviceStatus : ServiceStatus
  processes : List ProcessInformation
deriving DecidableEq

/-- State after the constructor: all three flags set to `false`, no
process record stored. -/
def initialState : LState :=
  { serviceStatus := { backend := false, frontend := false, system := false },
    processes := [] }

/-- The destructor's cleanup loop: `TerminateProcess` is called on every
stored handle different from `INVALID_HANDLE_VALUE`; this returns the list
of process handles terminated when the launcher exits. -/
def destructorTerminated (s : LState) : List Int :=
  (s.processes.filter (fun p => p.hProcess != INVALID_HANDLE_VALUE)).map
    (fun p => p.hProcess)

/-- A wall-clock timestamp as produced by `std::localtime`. -/
structure Tm where
  hour : Nat
  min : Nat
  sec : Nat
deriving DecidableEq

/-- `std::setfill(L'0') << std::setw(2)` applied to a number: pad with one
leading zero when the decimal representation is a single digit. -/
def pad2 (n : Nat) : String :=
  if n < 10 then "0" ++ toString n else toString n

/-- The line `AddLog` builds: `[HH:MM:SS] <message>` followed by CRLF. -/
def formatLogLine (t : Tm) (message : String) : String :=
  "[" ++ pad2 t.hour ++ ":" ++ pad2 t.min ++ ":" ++ pad2 t.sec ++ "] " ++
    message ++ "\r\n"

/-- `AddLog`: formats the message with the current timestamp and appends it
at the end of the log textbox (`EM_SETSEL` to the end, then
`EM_REPLACESEL`). The textbox content is modelled as the list of appended
entries, in order. -/
def AddLog (t : Tm) (message : String) (buf : List String) : List String :=
  buf ++ [formatLogLine t message]

/-- The URL probed for a port: `http://localhost:<port>/health`. -/
def healthUrl (port : Nat) : String :=
  "http://localhost:" ++ toString port ++ "/health"

/-- `CheckPort`: open a WinINet session, issue one GET against the port's
health URL, and report `hUrl != NULL`. If `InternetOpen` fails the function
returns `false` without any network traffic. Returns the trace of network
effects together with the boolean result. -/
def CheckPort (net : NetEnv) (port : Nat) : List Eff × Bool :=
  if net.internetOpenOk then
    ([Eff.httpGet (healthUrl port)], net.getSucceeds (healthUrl port))
  else
    ([], false)

/-- `UpdateServiceStatus`: sequentially re-probe ports 8001, 3000 and 8000,
overwrite the three flags with the results, and repaint the three
indicators (`UpdateStatusIndicator` calls `InvalidateRect`). -/
def UpdateServiceStatus (env : Env) (s : LState) : LState × List Eff :=
  let backendProbe := CheckPort env.net 8001
  let frontendProbe := CheckPort env.net 3000
  let systemProbe := CheckPort env.net 8000
  ({ s with
      serviceStatus :=
        { backend := backendProbe.2,
          frontend := frontendProbe.2,
          system := systemProbe.2 } },
   backendProbe.1 ++ frontendProbe.1 ++ systemProbe.1 ++
     [Eff.inval Service.backend, Eff.inval Service.frontend,
      Eff.inval Service.system])

/-- The `WM_CTLCOLORSTATIC` handler's text-colour choice: for each status
dot, green when that service's flag is set and red otherwise; white for
every other static control. -/
def ctlColorStatic (status : ServiceStatus) : Ctl → RGB
  | Ctl.statusBackend => if status.backend then rgbGreen else rgbRed
  | Ctl.statusFrontend => if status.frontend then rgbGreen else rgbRed
  | Ctl.statusSystem => if status.system then rgbGreen else rgbRed
  | Ctl.other => rgbWhite

/-- `StartCompleteSystem`: log a start line; if the marker file
`main_etiquetadora.py` is absent, log an error and show a modal error
dialog, then return. Otherwise launch `start_sistema_completo.bat` via
`ShellExecuteEx`; on success log a confirmation and schedule timer 3001
with an 8000 ms period, on failure log an error. -/
def StartCompleteSystem (env : Env) : List Eff :=
  [Eff.log "🚀 Iniciando sistema completo..."] ++
  if env.markerPresent = false then
    [Eff.log "❌ Error: No se encuentra main_etiquetadora.py",
     Eff.msgBox "No estás en la raíz del proyecto VisiFruit" "Error"]
  else
    [Eff.shellExec "start_sistema_completo.bat" ""] ++
    if env.shellOk "start_sistema_completo.bat" then
      [Eff.log "✅ Sistema completo iniciado", Eff.setTimer 3001 8000]
    else
      [Eff.log "❌ Error iniciando sistema completo"]

/-- The PowerShell command `StopAllServices` builds for one port. -/
def killCmd (port : Nat) : String :=
  "taskkill /F /FI \"PID eq $(Get-NetTCPConnection -LocalPort " ++
    toString port ++ " | Select-Object -ExpandProperty OwningProcess)\""

/-- `std::vector<int> ports = \x7b8000, 8001, 3000\x7d;` in
`StopAllServices`. -/
def stopPorts : List Nat := [8000, 8001, 3000]

/-- `StopAllServices`: log a stopping line, then for each of the three
fixed ports launch `powershell` with a taskkill command via
`ShellExecuteEx` — the `BOOL` result of each call is discarded — and
finally log a success line unconditionally. -/
def StopAllServices (env : Env) : List Eff :=
  [Eff.log "⏹️ Deteniendo todos los servicios..."] ++
  (stopPorts.map (fun port => Eff.shellExec "powershell" (killCmd port))) ++
  [Eff.log "✅ Servicios detenidos"]

/-- `StartIndividualService`: log a starting line, launch the script via
`ShellExecuteEx`, and log success or failure of the launch. The
`sei.hProcess` handle requested by `SEE_MASK_NOCLOSEPROCESS` is never
stored anywhere. -/
def StartIndividualService (env : Env) (service scriptName : String) :
    List Eff :=
  [Eff.log ("🔧 Iniciando " ++ service ++ "..."),
   Eff.shellExec scriptName ""] ++
  if env.shellOk scriptName then
    [Eff.log ("✅ " ++ service ++ " iniciado")]
  else
    [Eff.log ("❌ Error iniciando " ++ service)]

/-- `OpenURL`: fire-and-forget `ShellExecute` on the URL, then log it. -/
def OpenURL (url : String) : List Eff :=
  [Eff.openUrl url, Eff.log ("🌐 Abierto: " ++ url)]

/-- `HandleCommand`: dispatch a `WM_COMMAND` control id to its action. -/
def HandleCommand (env : Env) (commandId : Nat) : List Eff :=
  if commandId = ID_START_ALL then StartCompleteSystem env
  else if commandId = ID_STOP_ALL then StopAllServices env
  else if commandId = ID_START_BACKEND then
    StartIndividualService env "Backend" "start_backend.bat"
  else if commandId = ID_START_FRONTEND then
    StartIndividualService env "Frontend" "start_frontend.bat"
  else if commandId = ID_START_SYSTEM then
    StartIndividualService env "Sistema Principal" "main_etiquetadora.py"
  else if commandId = ID_OPEN_FRONTEND then OpenURL "http://localhost:3000"
  else if commandId = ID_OPEN_BACKEND then
    OpenURL "http://localhost:8001/api/docs"
  else if commandId = ID_OPEN_SYSTEM then OpenURL "http://localhost:8000"
  else []

/-- One step of the window procedure on the modelled events. Command
dispatch never touches the state; timer `TIMER_STATUS_UPDATE` runs the poll
cycle; timer 3001 opens the frontend URL in the browser and then kills
itself, so it fires at most once. -/
def step (env : Env) (s : LState) : Event → LState × List Eff
  | Event.command commandId => (s, HandleCommand env commandId)
  | Event.timer timerId =>
    if timerId = TIMER_STATUS_UPDATE then UpdateServiceStatus env s
    else if timerId = 3001 then
      (s, OpenURL "http://localhost:3000" ++ [Eff.killTimer 3001])
    else (s, [])

/-- Run a sequence of events from a state, concatenating the traces. -/
def runSteps (env : Env) (s : LState) : List Event → LState × List Eff
  | [] => (s, [])
  | e :: rest =>
    let r := step env s e
    let r' := runSteps env r.1 rest
    (r'.1, r.2 ++ r'.2)

/-- Is an effect a `ShellExecuteEx` launch attempt? -/
def isLaunch : Eff → Bool
  | Eff.shellExec _ _ => true
  | _ => false

/-- Is an effect a `SetTimer` call? -/
def isSetTimer : Eff → Bool
  | Eff.setTimer _ _ => true
  | _ => false

/-- Is an effect a modal `MessageBox`? -/
def isMsgBox : Eff → Bool
  | Eff.msgBox _ _ => true
  | _ => false

/-- Is an effect an error log line (the launcher's error messages all start
with the ❌ mark)? -/
def isErrorLog : Eff → Bool
  | Eff.log m => "❌".data.isPrefixOf m.data
  | _ => false

/-- The log messages of a trace, in order. -/
def logMessages (tr : List Eff) : List String :=
  tr.filterMap (fun e =>
    match e with
    | Eff.log m => some m
    | _ => none)

/-- Number of `ShellExecuteEx` launch attempts in a trace that succeed
under the environment: each such call, made with `SEE_MASK_NOCLOSEPROCESS`,
creates an OS process handle in `sei.hProcess`. -/
def successfulLaunchCount (env : Env) (tr : List Eff) : Nat :=
  (tr.filter (fun e =>
    match e with
    | Eff.shellExec f _ => env.shellOk f
    | _ => false)).length

/-- The `wParam` of the `WM_QUIT` message: `PostQuitMessage(0)` in the
`WM_DESTROY` handler. -/
def wmDestroyQuitParam : Nat := 0

/-- `WinMain`: if `Initialize` fails, show a blocking error dialog and
return 1; otherwise run the message loop and return its `WM_QUIT`
parameter. Returns the error-path trace together with the exit code. -/
def winMainModel (initOk : Bool) : List Eff × Nat :=
  if initOk then ([], wmDestroyQuitParam)
  else ([Eff.msgBox "Error inicializando el launcher" "Error"], 1)

/-- An environment where every external call succeeds and the marker file
is present. -/
def envAllOk : Env :=
  { net := { internetOpenOk := true, getSucceeds := fun _ => true },
    markerPresent := true,
    shellOk := fun _ => true }

/-- Like `envAllOk` but with the marker file absent from the working
directory. -/
def envNoMarker : Env :=
  { net := { internetOpenOk := true, getSucceeds := fun _ => true },
    markerPresent := false,
    shellOk := fun _ => true }

/-- Helper: the state after one poll tick carries exactly the three fresh
probe results. -/
theorem step_poll_serviceStatus (env : Env) (s : LState) :
    (step env s (Event.timer TIMER_STATUS_UPDATE)).1.serviceStatus =
      { backend := (CheckPort env.net 8001).2,
        frontend := (CheckPort env.net 3000).2,
        system := (CheckPort env.net 8000).2 } := rfl

/-- Helper: the green and red indicator colours are distinct. -/
theorem rgbGreen_ne_rgbRed : rgbGreen ≠ rgbRed := by decide

/-- Claim C1: for each of the three services, the indicator is painted
green exactly when the most recent probe of that service's port returned
reachable, red otherwise, and the colour is computed from the same status
flag the poll cycle last wrote. -/
theorem C1_indicator_color (env : Env) (s : LState) (svc : Service) :
    (ctlColorStatic (step env s (Event.timer TIMER_STATUS_UPDATE)).1.serviceStatus
        (ctlOf svc) = rgbGreen ↔ (CheckPort env.net (portOf svc)).2 = true) ∧
    (ctlColorStatic (step env s (Event.timer TIMER_STATUS_UPDATE)).1.serviceStatus
        (ctlOf svc) = rgbRed ↔ (CheckPort env.net (portOf svc)).2 = false) ∧
    ctlColorStatic (step env s (Event.timer TIMER_STATUS_UPDATE)).1.serviceStatus
        (ctlOf svc) =
      (if (step env s (Event.timer TIMER_STATUS_UPDATE)).1.serviceStatus.get svc
       then rgbGreen else rgbRed) := by
  rw [step_poll_serviceStatus]
  cases svc <;>
    simp only [ctlOf, portOf, ctlColorStatic, ServiceStatus.get] <;>
    cases hb : (CheckPort env.net 8001).2 <;>
    cases hf : (CheckPort env.net 3000).2 <;>
    cases hy : (CheckPort env.net 8000).2 <;>
    simp_all <;> decide

/-- Claim C3: "stop all" issues exactly three kill-command launches, one
per fixed port 8000, 8001, 3000 in that order, each a fire-and-forget
`powershell` invocation; no other port is targeted. -/
theorem C3_stopAll_three_kills (env : Env) :
    (StopAllServices env).filter isLaunch =
      [Eff.shellExec "powershell" (killCmd 8000),
       Eff.shellExec "powershell" (killCmd 8001),
       Eff.shellExec "powershell" (killCmd 3000)] ∧
    stopPorts = [8000, 8001, 3000] ∧
    ((StopAllServices env).filter isLaunch).length = 3 := by
  refine ⟨rfl, rfl, rfl⟩

/-- Claim C8: the three status flags start out `false` after the
constructor, a poll tick overwrites all three with fresh probe results for
ports 8001, 3000 and 8000, and no other event — in particular no command
dispatch or launch — ever writes them. -/
theorem C8_flags_written_only_by_poll (env : Env) (s : LState) (e : Event) :
    initialState.serviceStatus =
      { backend := false, frontend := false, system := false } ∧
    (step env s e).1.serviceStatus =
      (if e = Event.timer TIMER_STATUS_UPDATE then
        { backend := (CheckPort env.net 8001).2,
          frontend := (CheckPort env.net 3000).2,
          system := (CheckPort env.net 8000).2 }
       else s.serviceStatus) := by
  refine ⟨rfl, ?_⟩
  cases e with
  | command commandId =>
    simp only [step, Event.command.injEq, reduceCtorEq, if_false]
  | timer timerId =>
    by_cases h : timerId = TIMER_STATUS_UPDATE
    · subst h
      simp [step, UpdateServiceStatus]
    · have hne : ¬(Event.timer timerId = Event.timer TIMER_STATUS_UPDATE) := by
        simp [h]
      rw [if_neg hne]
      by_cases h2 : timerId = 3001
      · subst h2
        simp [step, TIMER_STATUS_UPDATE]
      · simp only [step, if_neg h, if_neg h2]

/-- Claim C9: the process exits with code 1 exactly when window
initialization fails, after a blocking error dialog, and with code 0 (the
`PostQuitMessage(0)` parameter) on normal message-loop exit; no other exit
code is produced. -/
theorem C9_exit_codes (initOk : Bool) :
    ((winMainModel initOk).2 = 1 ↔ initOk = false) ∧
    ((winMainModel initOk).2 = 0 ↔ initOk = true) ∧
    ((winMainModel initOk).2 = 0 ∨ (winMainModel initOk).2 = 1) ∧
    (winMainModel initOk).1 =
      (if initOk then []
       else [Eff.msgBox "Error inicializando el launcher" "Error"]) ∧
    wmDestroyQuitParam = 0 := by
  cases initOk <;> simp [winMainModel, wmDestroyQuitParam]

/-- Claim C10: every "stop all" invocation logs exactly two lines, the
second always the success message "✅ Servicios detenidos"; the result of
each kill-command launch is discarded, so the trace is identical whatever
the shell outcomes and contains no error line. -/
theorem C10_stopAll_logs_unconditional (env env' : Env) :
    logMessages (StopAllServices env) =
      ["⏹️ Deteniendo todos los servicios...", "✅ Servicios detenidos"] ∧
    (logMessages (StopAllServices env)).length = 2 ∧
    ((StopAllServices env).filter isErrorLog).length = 0 ∧
    StopAllServices env = StopAllServices env' := by
  refine ⟨rfl, rfl, rfl, rfl⟩

/-- Claim C4: "start all" with the marker file absent produces exactly the
start log line, one error log line and one modal error dialog, launches no
process, schedules no timer, and leaves the launcher state unchanged. -/
theorem C4_startAll_marker_absent (env : Env) (s : LState)
    (hm : env.markerPresent = false) :
    StartCompleteSystem env =
      [Eff.log "🚀 Iniciando sistema completo...",
       Eff.log "❌ Error: No se encuentra main_etiquetadora.py",
       Eff.msgBox "No estás en la raíz del proyecto VisiFruit" "Error"] ∧
    ((StartCompleteSystem env).filter isErrorLog).length = 1 ∧
    ((StartCompleteSystem env).filter isMsgBox).length = 1 ∧
    ((StartCompleteSystem env).filter isLaunch).length = 0 ∧
    ((StartCompleteSystem env).filter isSetTimer).length = 0 ∧
    (step env s (Event.command ID_START_ALL)).1 = s := by
  have h1 : StartCompleteSystem env =
      [Eff.log "🚀 Iniciando sistema completo...",
       Eff.log "❌ Error: No se encuentra main_etiquetadora.py",
       Eff.msgBox "No estás en la raíz del proyecto VisiFruit" "Error"] := by
    simp [StartCompleteSystem, hm]
  rw [h1]
  exact ⟨rfl, rfl, rfl, rfl, rfl, rfl⟩

/-- Witness for C4 at a concrete environment without the marker file. -/
theorem C4_startAll_marker_absent_witness :
    envNoMarker.markerPresent = false ∧
    (StartCompleteSystem envNoMarker =
      [Eff.log "🚀 Iniciando sistema completo...",
       Eff.log "❌ Error: No se encuentra main_etiquetadora.py",
       Eff.msgBox "No estás en la raíz del proyecto VisiFruit" "Error"] ∧
    ((StartCompleteSystem envNoMarker).filter isErrorLog).length = 1 ∧
    ((StartCompleteSystem envNoMarker).filter isMsgBox).length = 1 ∧
    ((StartCompleteSystem envNoMarker).filter isLaunch).length = 0 ∧
    ((StartCompleteSystem envNoMarker).filter isSetTimer).length = 0 ∧
    (step envNoMarker initialState (Event.command ID_START_ALL)).1 =
      initialState) :=
  ⟨rfl, C4_startAll_marker_absent envNoMarker initialState rfl⟩

/-- Claim C5: "start all" with the marker file present makes exactly one
launch attempt, of `start_sistema_completo.bat`; exactly when that launch
succeeds, timer 3001 is scheduled with period 8000 ms, and when that timer
fires the frontend URL `http://localhost:3000` is opened in the browser and
the timer is killed, so it fires exactly once. -/
theorem C5_startAll_marker_present (env : Env) (s : LState)
    (hm : env.markerPresent = true) :
    (StartCompleteSystem env).filter isLaunch =
      [Eff.shellExec "start_sistema_completo.bat" ""] ∧
    (StartCompleteSystem env).filter isSetTimer =
      (if env.shellOk "start_sistema_completo.bat" then
        [Eff.setTimer 3001 8000]
       else []) ∧
    (step env s (Event.timer 3001)).2 =
      [Eff.openUrl "http://localhost:3000",
       Eff.log "🌐 Abierto: http://localhost:3000",
       Eff.killTimer 3001] ∧
    (step env s (Event.timer 3001)).1 = s := by
  refine ⟨?_, ?_, rfl, rfl⟩ <;>
    cases hb : env.shellOk "start_sistema_completo.bat" <;>
    simp [StartCompleteSystem, hm, hb, isLaunch, isSetTimer]

/-- Witness for C5 at a concrete environment with the marker file. -/
theorem C5_startAll_marker_present_witness :
    envAllOk.markerPresent = true ∧
    ((StartCompleteSystem envAllOk).filter isLaunch =
      [Eff.shellExec "start_sistema_completo.bat" ""] ∧
    (StartCompleteSystem envAllOk).filter isSetTimer =
      (if envAllOk.shellOk "start_sistema_completo.bat" then
        [Eff.setTimer 3001 8000]
       else []) ∧
    (step envAllOk initialState (Event.timer 3001)).2 =
      [Eff.openUrl "http://localhost:3000",
       Eff.log "🌐 Abierto: http://localhost:3000",
       Eff.killTimer 3001] ∧
    (step envAllOk initialState (Event.timer 3001)).1 = initialState) :=
  ⟨rfl, C5_startAll_marker_present envAllOk initialState rfl⟩

/-- Helper: the zero-padded decimal rendering of a number below 100 has
exactly two digits. -/
theorem pad2_length_two (n : Nat) (h : n < 100) : (pad2 n).length = 2 := by
  unfold pad2
  interval_cases n <;> rfl

/-- Claim C6: one `AddLog` call appends exactly one new entry at the end of
the log buffer, formatted `[HH:MM:SS] <message>` with zero-padded
two-digit time fields, leaving all earlier entries unchanged and in
order. -/
theorem C6_addLog_appends_one_line (t : Tm) (m : String) (buf : List String)
    (hh : t.hour < 24) (hmin : t.min < 60) (hsec : t.sec < 60) :
    AddLog t m buf = buf ++ [formatLogLine t m] ∧
    (AddLog t m buf).length = buf.length + 1 ∧
    (AddLog t m buf).take buf.length = buf ∧
    formatLogLine t m =
      "[" ++ pad2 t.hour ++ ":" ++ pad2 t.min ++ ":" ++ pad2 t.sec ++
        "] " ++ m ++ "\r\n" ∧
    (pad2 t.hour).length = 2 ∧ (pad2 t.min).length = 2 ∧
    (pad2 t.sec).length = 2 := by
  refine ⟨rfl, by simp [AddLog], by simp [AddLog], rfl,
    pad2_length_two _ (by omega), pad2_length_two _ (by omega),
    pad2_length_two _ (by omega)⟩

/-- Witness for C6 at a concrete timestamp, message and buffer. -/
theorem C6_addLog_appends_one_line_witness :
    (9 : Nat) < 24 ∧ (5 : Nat) < 60 ∧ (30 : Nat) < 60 ∧
    (AddLog ⟨9, 5, 30⟩ "test" ["previous"] =
      ["previous"] ++ [formatLogLine ⟨9, 5, 30⟩ "test"] ∧
    (AddLog ⟨9, 5, 30⟩ "test" ["previous"]).length = ["previous"].length + 1 ∧
    (AddLog ⟨9, 5, 30⟩ "test" ["previous"]).take ["previous"].length =
      ["previous"] ∧
    formatLogLine ⟨9, 5, 30⟩ "test" =
      "[" ++ pad2 9 ++ ":" ++ pad2 5 ++ ":" ++ pad2 30 ++ "] " ++ "test" ++
        "\r\n" ∧
    (pad2 9).length = 2 ∧ (pad2 5).length = 2 ∧ (pad2 30).length = 2) :=
  ⟨by decide, by decide, by decide,
    C6_addLog_appends_one_line ⟨9, 5, 30⟩ "test" ["previous"]
      (by decide) (by decide) (by decide)⟩

/-- Claim C7: when the WinINet session opens, `CheckPort` issues exactly
one HTTP GET, to `http://localhost:<port>/health`, performs no other
effect, and returns `true` exactly when the connection/response succeeded,
whatever the HTTP status code; any connection, timeout or resolve failure
yields `false`. -/
theorem C7_checkPort_single_get (net : NetEnv) (port : Nat)
    (h : net.internetOpenOk = true) :
    (CheckPort net port).1 = [Eff.httpGet (healthUrl port)] ∧
    ((CheckPort net port).2 = true ↔
      net.getSucceeds (healthUrl port) = true) ∧
    ((CheckPort net port).2 = false ↔
      net.getSucceeds (healthUrl port) = false) := by
  simp [CheckPort, h]

/-- Witness for C7 at a concrete environment and port. -/
theorem C7_checkPort_single_get_witness :
    envAllOk.net.internetOpenOk = true ∧
    ((CheckPort envAllOk.net 8001).1 = [Eff.httpGet (healthUrl 8001)] ∧
    ((CheckPort envAllOk.net 8001).2 = true ↔
      envAllOk.net.getSucceeds (healthUrl 8001) = true) ∧
    ((CheckPort envAllOk.net 8001).2 = false ↔
      envAllOk.net.getSucceeds (healthUrl 8001) = false)) :=
  ⟨rfl, C7_checkPort_single_get envAllOk.net 8001 rfl⟩

/-- Claim C2 counterexample: the `processes` vector is never appended to.
In a run where one "start" action succeeds — creating one OS process
handle via `SEE_MASK_NOCLOSEPROCESS` — the handle list is still empty
afterwards, so the destructor terminates zero handles, not the handles
created by start actions. -/
theorem C2_handles_never_retained :
    successfulLaunchCount envAllOk
      (runSteps envAllOk initialState [Event.command ID_START_BACKEND]).2 =
      1 ∧
    (runSteps envAllOk initialState
      [Event.command ID_START_BACKEND]).1.processes = [] ∧
    destructorTerminated
      (runSteps envAllOk initialState
        [Event.command ID_START_BACKEND]).1 = [] :=
  ⟨rfl, rfl, rfl⟩

end VisiFruit
